import Mathlib

/-!
Verification of the reaction-kinetics core (`src/reactions/reaction.py`)
of the 0D global model.

Densities, temperatures, rate constants, masses and physical constants are
modelled as rational numbers; the state vector is a `List ℚ` laid out as
`[n_0, ..., n_(N-1), T_e, T_1, ...]` exactly as in the source.  The species
registry (`src/specie.py`) is not part of the sources; it is modelled from
the spec as a narrow lookup interface (§6 of the spec).
-/

/-- Physical constant `m_e` (electron mass) as imported from `scipy.constants`. -/
def m_e : ℚ := 9.1093837015e-31

/-- Physical constant `k` (Boltzmann constant, aliased `k_B`) as imported from
`scipy.constants`. -/
def k_B : ℚ := 1.380649e-23

/-- Modelled from the spec: a species entry of the registry (`src/specie.py`
is absent from the sources).  Each species carries a unique `name`, a `mass`
and an atom count `nb_atoms`. -/
structure Specie where
  name : String
  mass : ℚ
  nb_atoms : Nat
deriving DecidableEq

instance : Inhabited Specie where
  default := ⟨"", 0, 0⟩

/-- Modelled from the spec: the Species Registry is an external collaborator
with a narrow lookup contract (spec §6): `get_specie_by_name` (may fail),
`get_index_by_instance` (stable, deterministic), and the species count `nb`. -/
structure Species where
  get_specie_by_name : String → Option Specie
  get_index_by_instance : Specie → Nat
  nb : Nat

/-- Modelled from the spec: a registry built from an ordered list of species,
as in `Species([...])` of the module self-test.  Lookup by name returns the
first entry with that name; lookup by instance returns its position; `nb` is
the registry size. -/
def mkSpecies (l : List Specie) : Species where
  get_specie_by_name := fun n => l.find? (fun sp => sp.name == n)
  get_index_by_instance := fun sp => l.findIdx (fun x => x == sp)
  nb := l.length

/-- Failure modes of `Reaction.__init__`: an unknown species name raises a
lookup error inside `get_specie_by_name`; `max` of an empty index list raises
`ValueError`; the two `assert` statements raise `AssertionError` with their
messages. -/
inductive ReactionError where
  | lookupError (name : String)
  | emptyMax
  | assertionFailed (msg : String)
deriving DecidableEq

/-- The `Reaction` object after a successful `__init__`. -/
structure Reaction where
  species : Species
  reactives : List Specie
  reactives_indices : List Nat
  products : List Specie
  products_indices : List Nat
  stoechio_coeffs : List ℚ
  energy_threshold : ℚ
  rate_constant : List ℚ → ℚ
  spectators : Option (List String)

instance : Inhabited Reaction where
  default :=
    { species := mkSpecies []
      reactives := []
      reactives_indices := []
      products := []
      products_indices := []
      stoechio_coeffs := []
      energy_threshold := 0
      rate_constant := fun _ => 0
      spectators := none }

/-- `[self.species.get_specie_by_name(name) for name in names]`: resolves each
name through the registry, failing on the first unknown name. -/
def resolveAll (species : Species) (names : List String) :
    Except ReactionError (List Specie) :=
  match names with
  | [] => .ok []
  | n :: t =>
    match species.get_specie_by_name n with
    | none => .error (.lookupError n)
    | some sp => (resolveAll species t).map (fun l => sp :: l)

/-- `assert max(indices) < nb, msg`: Python's `max` raises on an empty list,
otherwise the assertion fails when the maximum index reaches `nb`. -/
def checkIndices (nb : Nat) (indices : List Nat) (msg : String) :
    Except ReactionError Unit :=
  match indices with
  | [] => .error .emptyMax
  | i :: t => if t.foldl max i < nb then .ok () else .error (.assertionFailed msg)

/-- The default fill of `stoechio_coeffs` in `Reaction.__init__`: a zero
vector of length `nb`; the first loop sets entry `i` to 1 for each reactive
index `i`; the second loop iterates over the product indices but assigns to
the index variable `i` leaked from the first loop (the source writes
`self.stoechio_coeffs[i] = 1` with `i` unchanged, not `[sp]`). -/
def defaultStoechio (nb : Nat) (reactives_indices products_indices : List Nat) :
    List ℚ :=
  let init : List ℚ × Option Nat := (List.replicate nb (0 : ℚ), none)
  let st := reactives_indices.foldl (fun p i => (p.1.set i 1, some i)) init
  match st.2 with
  | none => st.1
  | some i => products_indices.foldl (fun c _ => c.set i 1) st.1

/-- `Reaction.__init__`: resolves reactive and product names, computes their
registry indices, checks both index lists against the registry size, installs
the stoichiometric coefficients (explicit ones when a non-empty list is
supplied — Python truthiness — otherwise the default fill) and stores the
rate-constant function, threshold and spectators. -/
def mkReaction (species : Species) (reactives products : List String)
    (rate_constant : List ℚ → ℚ) (energy_treshold : ℚ)
    (stoechio_coeffs : Option (List ℚ)) (spectators : Option (List String)) :
    Except ReactionError Reaction :=
  match resolveAll species reactives with
  | .error e => .error e
  | .ok rs =>
    let ris := rs.map species.get_index_by_instance
    match checkIndices species.nb ris
        "Reactive index is greater than number of species" with
    | .error e => .error e
    | .ok _ =>
      match resolveAll species products with
      | .error e => .error e
      | .ok ps =>
        let pis := ps.map species.get_index_by_instance
        match checkIndices species.nb pis
            "Product index is greater than number of species" with
        | .error e => .error e
        | .ok _ =>
          let sc :=
            match stoechio_coeffs with
            | some l => if l.isEmpty then defaultStoechio species.nb ris pis else l
            | none => defaultStoechio species.nb ris pis
          .ok { species := species
                reactives := rs
                reactives_indices := ris
                products := ps
                products_indices := pis
                stoechio_coeffs := sc
                energy_threshold := energy_treshold
                rate_constant := rate_constant
                spectators := spectators }

/-- Writes `v (f x)` into position `f x` of the accumulator for each element
`x` of `l`, in order: the shape of the two assignment loops of
`density_change_rate`. -/
def setAll {α : Type} (f : α → Nat) (v : Nat → ℚ) (l : List α) (init : List ℚ) :
    List ℚ :=
  l.foldl (fun acc x => acc.set (f x) (v (f x))) init

/-- `np.prod(state[self.reactives_indices])`: the product of the densities of
the reactive species. -/
def Reaction.reactProd (r : Reaction) (state : List ℚ) : ℚ :=
  (r.reactives_indices.map (fun i => state.getD i 0)).prod

/-- The body of `density_change_rate` once the scalar `K` returned by the
rate-constant function is given: `product = K * Π densities`; a zero vector
of length `N`; `rate[i] = -product * stoechio_coeffs[i]` for each reactive,
then `rate[i] = +product * stoechio_coeffs[i]` for each product (the index
`i` is recomputed through `get_index_by_instance` in both loops, as in the
source). -/
def Reaction.density_change_rate_withK (r : Reaction) (K : ℚ) (state : List ℚ) :
    List ℚ :=
  let product := K * r.reactProd state
  let rate := List.replicate r.species.nb (0 : ℚ)
  let rate := setAll r.species.get_index_by_instance
    (fun i => -(product * r.stoechio_coeffs.getD i 0)) r.reactives rate
  setAll r.species.get_index_by_instance
    (fun i => product * r.stoechio_coeffs.getD i 0) r.products rate

/-- `Reaction.density_change_rate`: `K = self.rate_constant(state[self.species.nb:])`
— the rate-constant function receives the temperature sub-vector — followed by
the mass-action bookkeeping of `density_change_rate_withK`. -/
def Reaction.density_change_rate (r : Reaction) (state : List ℚ) : List ℚ :=
  r.density_change_rate_withK (r.rate_constant (state.drop r.species.nb)) state

/-- `Reaction.electron_loss_power`: `K = self.rate_constant(state)` — the full
state vector — and `power_loss = energy_threshold * K * Π densities`. -/
def Reaction.electron_loss_power (r : Reaction) (state : List ℚ) : ℚ :=
  let K := r.rate_constant state
  r.energy_threshold * K * r.reactProd state

/-- `ElasticCollisionWithElectron.__init__`: builds the base `Reaction` with
the colliding species as sole reactive and sole product and no explicit
stoichiometric coefficients or spectators. -/
def mkElasticCollisionWithElectron (species : Species) (colliding_specie : String)
    (rate_constant : List ℚ → ℚ) (energy_treshold : ℚ) :
    Except ReactionError Reaction :=
  mkReaction species [colliding_specie] [colliding_specie] rate_constant
    energy_treshold none none

namespace ElasticCollisionWithElectron

/-- The override `ElasticCollisionWithElectron.density_change_rate`:
`np.zeros(self.species.nb)`. -/
def density_change_rate (r : Reaction) (_state : List ℚ) : List ℚ :=
  List.replicate r.species.nb (0 : ℚ)

/-- The override `ElasticCollisionWithElectron.electron_loss_power`:
`K = rate_constant(state)`; the mass ratio `m_e / reactives[0].mass`;
`delta_temp = state[nb] - state[nb + reactives[0].nb_atoms]`; and
`3 * mass ratio * k_B * delta_temp * state[0] * state[reactives_indices[0]] * K`. -/
def electron_loss_power (r : Reaction) (state : List ℚ) : ℚ :=
  let K := r.rate_constant state
  let mr := m_e / (r.reactives.headD default).mass
  let delta_temp := state.getD r.species.nb 0 -
    state.getD (r.species.nb + (r.reactives.headD default).nb_atoms) 0
  3 * mr * k_B * delta_temp * state.getD 0 0 *
    state.getD (r.reactives_indices.headD 0) 0 * K

end ElasticCollisionWithElectron

/-- The six-species registry of the module self-test: `I0..I5`, each of mass
`10.57e-27` and `nb_atoms = 0`. -/
def testSpecies : Species :=
  mkSpecies [⟨"I0", 10.57e-27, 0⟩, ⟨"I1", 10.57e-27, 0⟩, ⟨"I2", 10.57e-27, 0⟩,
    ⟨"I3", 10.57e-27, 0⟩, ⟨"I4", 10.57e-27, 0⟩, ⟨"I5", 10.57e-27, 0⟩]

/-- The self-test reaction: reactives `["I2","I4"]`, products `["I5"]`,
constant rate function `2`, threshold `10`, default coefficients. -/
def testReactionE : Except ReactionError Reaction :=
  mkReaction testSpecies ["I2", "I4"] ["I5"] (fun _ => 2) 10 none none

/-- The successfully constructed self-test reaction. -/
def testReaction : Reaction :=
  match testReactionE with
  | .ok r => r
  | .error _ => default

/-- The self-test state vector `[1,2,3,4,5,6,-181,-182]`. -/
def testState : List ℚ := [1, 2, 3, 4, 5, 6, -181, -182]

/-- The reaction used for the overlap claim: `I4` is both a reactive and a
product. -/
def testOverlap : Reaction :=
  match mkReaction testSpecies ["I2", "I4"] ["I4"] (fun _ => 2) 10 none none with
  | .ok r => r
  | .error _ => default

/-- A two-species registry for the elastic-collision witness: an electron
marker and a one-atom heavy species. -/
def especies : Species :=
  mkSpecies [⟨"e", 9.1093837015e-31, 0⟩, ⟨"Xe", 2.18e-25, 1⟩]

/-- An elastic collision of electrons with `Xe` over `especies`. -/
def testElastic : Reaction :=
  match mkElasticCollisionWithElectron especies "Xe" (fun _ => 3) 0 with
  | .ok r => r
  | .error _ => default

/-- Modelled from the spec: a misbehaving registry, as produced by a caller
bug (registry/species mismatch): instance lookup reports index 7 although the
registry size is 2. -/
def badSpecies : Species where
  get_specie_by_name := fun _ => some ⟨"X", 1, 0⟩
  get_index_by_instance := fun _ => 7
  nb := 2

/-! ### Supporting lemmas about the assignment loops -/

theorem setAll_nil {α : Type} (f : α → Nat) (v : Nat → ℚ) (init : List ℚ) :
    setAll f v [] init = init := rfl

theorem setAll_cons {α : Type} (f : α → Nat) (v : Nat → ℚ) (x : α) (t : List α)
    (init : List ℚ) :
    setAll f v (x :: t) init = setAll f v t (init.set (f x) (v (f x))) := rfl

theorem setAll_length {α : Type} (f : α → Nat) (v : Nat → ℚ) (l : List α)
    (init : List ℚ) : (setAll f v l init).length = init.length := by
  induction l generalizing init with
  | nil => rfl
  | cons x t ih => rw [setAll_cons, ih, List.length_set]

theorem setAll_getD_of_not_mem {α : Type} (f : α → Nat) (v : Nat → ℚ)
    (l : List α) (init : List ℚ) (p : Nat) (h : ∀ x ∈ l, f x ≠ p) :
    (setAll f v l init).getD p 0 = init.getD p 0 := by
  induction l generalizing init with
  | nil => rfl
  | cons x t ih =>
    rw [setAll_cons, ih _ (fun y hy => h y (List.mem_cons_of_mem x hy))]
    have hne : f x ≠ p := h x (List.mem_cons_self x t)
    simp [List.getD_eq_getD_get?, List.get?_eq_getElem?, List.getElem?_set_ne hne]

theorem replicate_getD_zero (n i : Nat) : (List.replicate n (0 : ℚ)).getD i 0 = 0 := by
  rw [List.getD_eq_getD_get?, List.get?_eq_getElem?, List.getElem?_replicate]
  split <;> rfl

theorem le_foldl_max (i : Nat) (t : List Nat) : ∀ j ∈ i :: t, j ≤ t.foldl max i := by
  induction t generalizing i with
  | nil => simp
  | cons a t ih =>
    intro j hj
    rcases List.mem_cons.mp hj with rfl | hj
    · exact le_trans (le_max_left j a) (ih (max j a) (max j a) (List.mem_cons_self _ _))
    · rcases List.mem_cons.mp hj with rfl | hj
      · exact le_trans (le_max_right i j) (ih (max i j) (max i j) (List.mem_cons_self _ _))
      · exact ih (max i a) j (List.mem_cons_of_mem _ hj)

theorem foldl_max_lt (i : Nat) (t : List Nat) (n : Nat)
    (h : ∀ j ∈ i :: t, j < n) : t.foldl max i < n := by
  induction t generalizing i with
  | nil => exact h i (List.mem_cons_self _ _)
  | cons a t ih =>
    refine ih (max i a) (fun j hj => ?_)
    rcases List.mem_cons.mp hj with rfl | hj
    · exact max_lt (h i (List.mem_cons_self _ _))
        (h a (List.mem_cons_of_mem _ (List.mem_cons_self _ _)))
    · exact h j (List.mem_cons_of_mem _ (List.mem_cons_of_mem _ hj))

theorem checkIndices_ok (nb : Nat) (l : List Nat) (msg : String)
    (hne : l ≠ []) (h : ∀ j ∈ l, j < nb) : checkIndices nb l msg = .ok () := by
  match l with
  | [] => exact absurd rfl hne
  | i :: t =>
    simp only [checkIndices, if_pos (foldl_max_lt i t nb h)]

theorem checkIndices_error (nb : Nat) (l : List Nat) (msg : String)
    (h : ∃ j ∈ l, nb ≤ j) : checkIndices nb l msg = .error (.assertionFailed msg) := by
  match l with
  | [] => exact absurd h (by simp)
  | i :: t =>
    rcases h with ⟨j, hj, hnb⟩
    have hmax : ¬ t.foldl max i < nb :=
      fun hlt => absurd (lt_of_le_of_lt (le_foldl_max i t j hj) hlt) (Nat.not_lt.mpr hnb)
    simp only [checkIndices, if_neg hmax]

theorem setAll_getD_of_mem {α : Type} (f : α → Nat) (v : Nat → ℚ)
    (l : List α) (init : List ℚ) (p : Nat) (hp : p < init.length)
    (h : ∃ x ∈ l, f x = p) : (setAll f v l init).getD p 0 = v p := by
  induction l generalizing init with
  | nil => exact absurd h (by simp)
  | cons x t ih =>
    rw [setAll_cons]
    by_cases ht : ∃ y ∈ t, f y = p
    · exact ih _ (by rw [List.length_set]; exact hp) ht
    · have hx : f x = p := by
        rcases h with ⟨y, hy, hfy⟩
        rcases List.mem_cons.mp hy with rfl | hyt
        · exact hfy
        · exact absurd ⟨y, hyt, hfy⟩ ht
      push_neg at ht
      rw [setAll_getD_of_not_mem f v t _ p ht, hx,
        List.getD_eq_getD_get?, List.get?_eq_getElem?,
        List.getElem?_set_eq_of_lt _ hp]
      rfl

/-! ### Claims -/

unseal Rat.add Rat.mul Rat.ofScientific Rat.inv Rat.sub in
/-- C1: the spec's concrete self-test scenario expects
`rate = [0, 0, -30, 0, -30, 0 + 30]`, i.e. `rate[5] = +30`.  The construction
succeeds, but because the default-coefficient fill never assigns the product
index (the products loop reuses the leaked reactive loop variable),
`stoechio_coeffs[5] = 0` and the code returns `rate[5] = 0`: the returned
vector is `[0, 0, -30, 0, -30, 0]`. -/
theorem selftest_density_change_rate_eval :
    testReactionE = .ok testReaction ∧
    testReaction.density_change_rate testState = [0, 0, -30, 0, -30, 0] :=
  ⟨rfl, by decide⟩

unseal Rat.add Rat.mul Rat.ofScientific Rat.inv Rat.sub in
/-- C2: the claim says the default `stoechio_coeffs` vector is 1 at every
reactive and at every product index.  On the self-test reaction the vector is
`[0, 0, 1, 0, 1, 0]` while the single product index is 5: the product entry
is 0, not 1 (the products loop of the default fill assigns through the leaked
reactive index variable). -/
theorem default_stoechio_coeffs_eval :
    testReaction.stoechio_coeffs = [0, 0, 1, 0, 1, 0] ∧
    testReaction.products_indices = [5] ∧
    testReaction.stoechio_coeffs.getD 5 0 = 0 := by
  decide

/-- C3: when a species index occurs both among the reactive indices and among
the product indices, `density_change_rate` writes the reactive entry first
and then overwrites it in the products loop, so the returned entry equals
`+ product * stoechio_coeffs[idx]` where `product` is the rate constant
(applied to the temperature slice) times the mass-action product — the two
contributions are not summed. -/
theorem density_change_rate_products_branch_wins
    (r : Reaction) (state : List ℚ) (idx : Nat)
    (hpi : r.products_indices = r.products.map r.species.get_index_by_instance)
    (hlt : idx < r.species.nb)
    (h1 : idx ∈ r.reactives_indices) (h2 : idx ∈ r.products_indices) :
    (r.density_change_rate state).getD idx 0 =
      r.rate_constant (state.drop r.species.nb) * r.reactProd state *
        r.stoechio_coeffs.getD idx 0 := by
  simp only [Reaction.density_change_rate, Reaction.density_change_rate_withK]
  rw [hpi] at h2
  rcases List.mem_map.mp h2 with ⟨sp, hsp, hspidx⟩
  exact setAll_getD_of_mem _ _ _ _ _
    (by rw [setAll_length, List.length_replicate]; exact hlt) ⟨sp, hsp, hspidx⟩

unseal Rat.add Rat.mul Rat.ofScientific Rat.inv Rat.sub in
/-- Witness for C3 on a concrete overlapping reaction (`I4` is reactive and
product): the entry at index 4 is `+ 2 * (3 * 5) * 1 = 30`. -/
theorem density_change_rate_products_branch_wins_witness :
    (testOverlap.products_indices =
      testOverlap.products.map testOverlap.species.get_index_by_instance) ∧
    4 < testOverlap.species.nb ∧
    4 ∈ testOverlap.reactives_indices ∧
    4 ∈ testOverlap.products_indices ∧
    (testOverlap.density_change_rate testState).getD 4 0 =
      testOverlap.rate_constant (testState.drop testOverlap.species.nb) *
        testOverlap.reactProd testState * testOverlap.stoechio_coeffs.getD 4 0 :=
  ⟨by decide, by decide, by decide, by decide,
    density_change_rate_products_branch_wins testOverlap testState 4
      (by decide) (by decide) (by decide) (by decide)⟩

/-- C4: the two call conventions of the rate-constant function.
`density_change_rate` feeds it exactly the temperature sub-vector
`state[N:]` — the remainder of the computation (`density_change_rate_withK`)
uses the returned scalar only — while `electron_loss_power` feeds it the full
state vector. -/
theorem rate_constant_call_conventions (r : Reaction) (state : List ℚ) :
    r.density_change_rate state =
      r.density_change_rate_withK (r.rate_constant (state.drop r.species.nb)) state ∧
    r.electron_loss_power state =
      r.energy_threshold * r.rate_constant state * r.reactProd state :=
  ⟨rfl, rfl⟩

/-- C5: for a well-formed reaction (index lists consistent with the registry),
`density_change_rate` returns a vector of length exactly `N`, and every entry
whose index is in neither `reactives_indices` nor `products_indices` is 0. -/
theorem density_change_rate_length_and_uninvolved_zero
    (r : Reaction) (state : List ℚ)
    (hri : r.reactives_indices = r.reactives.map r.species.get_index_by_instance)
    (hpi : r.products_indices = r.products.map r.species.get_index_by_instance) :
    (r.density_change_rate state).length = r.species.nb ∧
    ∀ idx, idx ∉ r.reactives_indices → idx ∉ r.products_indices →
      (r.density_change_rate state).getD idx 0 = 0 := by
  constructor
  · simp only [Reaction.density_change_rate, Reaction.density_change_rate_withK]
    rw [setAll_length, setAll_length, List.length_replicate]
  · intro idx h1 h2
    simp only [Reaction.density_change_rate, Reaction.density_change_rate_withK]
    rw [setAll_getD_of_not_mem _ _ _ _ _
        (fun sp hsp heq => h2 (by rw [hpi]; exact List.mem_map.mpr ⟨sp, hsp, heq⟩)),
      setAll_getD_of_not_mem _ _ _ _ _
        (fun sp hsp heq => h1 (by rw [hri]; exact List.mem_map.mpr ⟨sp, hsp, heq⟩)),
      replicate_getD_zero]

unseal Rat.add Rat.mul Rat.ofScientific Rat.inv Rat.sub in
/-- Witness for C5 on the self-test reaction: length 6, and the uninvolved
index 0 carries a zero entry. -/
theorem density_change_rate_length_and_uninvolved_zero_witness :
    (testReaction.reactives_indices =
      testReaction.reactives.map testReaction.species.get_index_by_instance) ∧
    (testReaction.products_indices =
      testReaction.products.map testReaction.species.get_index_by_instance) ∧
    ((testReaction.density_change_rate testState).length = testReaction.species.nb ∧
     ∀ idx, idx ∉ testReaction.reactives_indices →
       idx ∉ testReaction.products_indices →
       (testReaction.density_change_rate testState).getD idx 0 = 0) :=
  ⟨by decide, by decide,
    density_change_rate_length_and_uninvolved_zero testReaction testState
      (by decide) (by decide)⟩

/-- C6: the elastic-collision override of `density_change_rate` returns the
`N`-length zero vector for every reaction object and every state. -/
theorem elastic_density_change_rate_zero (r : Reaction) (state : List ℚ) :
    (ElasticCollisionWithElectron.density_change_rate r state).length =
      r.species.nb ∧
    ∀ i, (ElasticCollisionWithElectron.density_change_rate r state).getD i 0 = 0 := by
  refine ⟨List.length_replicate _ _, fun i => ?_⟩
  exact replicate_getD_zero _ _

/-- C7: the elastic-collision override of `electron_loss_power` returns
exactly `3 * (m_e / s.mass) * k_B * (state[N] - state[N + s.nb_atoms]) *
state[0] * state[i] * rate_constant(state)` for colliding species `s` at
registry index `i`. -/
theorem elastic_electron_loss_power_formula (r : Reaction) (s : Specie) (i : Nat)
    (h1 : r.reactives = [s]) (h2 : r.reactives_indices = [i]) (state : List ℚ) :
    ElasticCollisionWithElectron.electron_loss_power r state =
      3 * (m_e / s.mass) * k_B *
        (state.getD r.species.nb 0 - state.getD (r.species.nb + s.nb_atoms) 0) *
        state.getD 0 0 * state.getD i 0 * r.rate_constant state := by
  simp only [ElasticCollisionWithElectron.electron_loss_power, h1, h2,
    List.headD_cons]

unseal Rat.add Rat.mul Rat.ofScientific Rat.inv Rat.sub in
/-- Witness for C7: the elastic collision of electrons with `Xe` (mass
`2.18e-25`, one atom, registry index 1) over the two-species registry. -/
theorem elastic_electron_loss_power_formula_witness :
    testElastic.reactives = [⟨"Xe", 2.18e-25, 1⟩] ∧
    testElastic.reactives_indices = [1] ∧
    ElasticCollisionWithElectron.electron_loss_power testElastic
        [10, 20, 100, 50, 40] =
      3 * (m_e / (2.18e-25 : ℚ)) * k_B *
        (([10, 20, 100, 50, 40] : List ℚ).getD testElastic.species.nb 0 -
          ([10, 20, 100, 50, 40] : List ℚ).getD (testElastic.species.nb + 1) 0) *
        ([10, 20, 100, 50, 40] : List ℚ).getD 0 0 *
        ([10, 20, 100, 50, 40] : List ℚ).getD 1 0 *
        testElastic.rate_constant [10, 20, 100, 50, 40] :=
  ⟨by decide, by decide,
    elastic_electron_loss_power_formula testElastic ⟨"Xe", 2.18e-25, 1⟩ 1
      (by decide) (by decide) [10, 20, 100, 50, 40]⟩

/-- C8: scaling the value returned by the rate-constant function by a positive
factor `c` scales the scalar returned by the base `electron_loss_power` by
exactly `c`. -/
theorem electron_loss_power_linear_in_rate_constant
    (r : Reaction) (c : ℚ) (hc : 0 < c) (state : List ℚ) :
    Reaction.electron_loss_power
        { r with rate_constant := fun st => c * r.rate_constant st } state =
      c * r.electron_loss_power state := by
  simp only [Reaction.electron_loss_power, Reaction.reactProd]
  ring

/-- Witness for C8 at the self-test reaction, state and factor `c = 2`. -/
theorem electron_loss_power_linear_in_rate_constant_witness :
    (0 : ℚ) < 2 ∧
    Reaction.electron_loss_power
        { testReaction with
          rate_constant := fun st => 2 * testReaction.rate_constant st } testState =
      2 * testReaction.electron_loss_power testState :=
  ⟨by norm_num,
    electron_loss_power_linear_in_rate_constant testReaction 2 (by norm_num)
      testState⟩

/-- C9: if name resolution succeeds but some resolved reactive or product
index reaches the registry size, `Reaction.__init__` fails with an
assertion-style error; no `Reaction` value is produced. -/
theorem mkReaction_invalid_index_fails
    (species : Species) (reactives products : List String)
    (rc : List ℚ → ℚ) (thr : ℚ) (sc : Option (List ℚ)) (spect : Option (List String))
    (rs ps : List Specie)
    (hrs : resolveAll species reactives = .ok rs)
    (hps : resolveAll species products = .ok ps)
    (hne : rs ≠ [])
    (hbad : ∃ i ∈ rs.map species.get_index_by_instance ++
        ps.map species.get_index_by_instance, species.nb ≤ i) :
    ∃ msg, mkReaction species reactives products rc thr sc spect =
      .error (.assertionFailed msg) := by
  by_cases hr : ∀ i ∈ rs.map species.get_index_by_instance, i < species.nb
  · rcases hbad with ⟨i, hi, hnb⟩
    rcases List.mem_append.mp hi with hi | hi
    · exact absurd (hr i hi) (Nat.not_lt.mpr hnb)
    · have hok : checkIndices species.nb (rs.map species.get_index_by_instance)
          "Reactive index is greater than number of species" = .ok () :=
        checkIndices_ok _ _ _ (by simpa using hne) hr
      have herr : checkIndices species.nb (ps.map species.get_index_by_instance)
          "Product index is greater than number of species" =
          .error (.assertionFailed
            "Product index is greater than number of species") :=
        checkIndices_error _ _ _ ⟨i, hi, hnb⟩
      exact ⟨"Product index is greater than number of species",
        by simp only [mkReaction, hrs, hok, hps, herr]⟩
  · push_neg at hr
    rcases hr with ⟨i, hi, hnb⟩
    have herr : checkIndices species.nb (rs.map species.get_index_by_instance)
        "Reactive index is greater than number of species" =
        .error (.assertionFailed
          "Reactive index is greater than number of species") :=
      checkIndices_error _ _ _ ⟨i, hi, hnb⟩
    exact ⟨"Reactive index is greater than number of species",
      by simp only [mkReaction, hrs, herr]⟩

/-- Witness for C9: a misbehaving registry resolving every instance to index
7 with size 2 makes construction fail with the assertion error. -/
theorem mkReaction_invalid_index_fails_witness :
    resolveAll badSpecies ["X"] = .ok [⟨"X", 1, 0⟩] ∧
    ([⟨"X", 1, 0⟩] : List Specie) ≠ [] ∧
    (∃ i ∈ ([⟨"X", 1, 0⟩] : List Specie).map badSpecies.get_index_by_instance ++
        ([⟨"X", 1, 0⟩] : List Specie).map badSpecies.get_index_by_instance,
      badSpecies.nb ≤ i) ∧
    ∃ msg, mkReaction badSpecies ["X"] ["X"] (fun _ => 0) 0 none none =
      .error (.assertionFailed msg) :=
  ⟨rfl, by decide, by decide,
    mkReaction_invalid_index_fails badSpecies ["X"] ["X"] (fun _ => 0) 0 none none
      [⟨"X", 1, 0⟩] [⟨"X", 1, 0⟩] rfl rfl (by decide) (by decide)⟩

/-- C10: the base `electron_loss_power` does not depend on the stoichiometric
coefficients: replacing `stoechio_coeffs` by any other vector leaves the
returned power unchanged for every state. -/
theorem electron_loss_power_ignores_stoechio_coeffs
    (r : Reaction) (sc : List ℚ) (state : List ℚ) :
    Reaction.electron_loss_power { r with stoechio_coeffs := sc } state =
      r.electron_loss_power state := rfl
